import Mathlib

/-!
Shallow embedding of drode's build-resolution, promotion, polling and status
engine (src/drode/services.py) together with the parts of the Drone and AWS
adapters (src/drode/adapters/drone.py, src/drode/adapters/aws.py) that the
engine relies on.

Build records travel through the services layer as dictionaries whose keys may
be absent (the unit tests drive the services with plain dicts); we model them
as a structure of optional fields, and dictionary subscription as an
`Except`-valued lookup that fails with a `KeyError` carrying the key, exactly
as Python does.  Exceptions are modelled with an explicit error type; a
Python `try/except SomeError` block becomes a `match` on the `Except` value
that intercepts only the corresponding constructor.
-/

namespace Drode

/-- The Python exceptions that the embedded code can raise. -/
inductive PyError where
  | keyError (key : String)
  | attributeError (attr : String)
  | typeError (msg : String)
  | configError (msg : String)
  | droneBuildError (msg : String)
  | droneAPIError (msg : String)
  | dronePromoteError (msg : String)
  | awsStateError (msg : String)
  deriving Repr, DecidableEq

/-- A build record as the services layer sees it: a dictionary with possibly
missing keys (see `BuildInfo` in src/drode/adapters/drone.py for the full key
set; only the keys the engine reads are modelled). -/
structure BuildRecord where
  id : Option Int := none
  number : Option Int := none
  status : Option String := none
  trigger : Option String := none
  event : Option String := none
  message : Option String := none
  source : Option String := none
  after : Option String := none
  target : Option String := none
  started : Option Int := none
  finished : Option Int := none
  deriving Repr, DecidableEq

/-- Python dictionary subscription `build[key]`: returns the value or raises
`KeyError(key)` when the key is missing. -/
def dictGet {α : Type} (field : Option α) (key : String) : Except PyError α :=
  match field with
  | some v => Except.ok v
  | none => Except.error (PyError.keyError key)

/-- `mentions msg sub` states that `sub` occurs verbatim inside `msg`
(used to express "the error message names X"). -/
def mentions (msg sub : String) : Prop := sub.data <:+: msg.data

theorem mentions_of_eq (m a s b : String) (h : a ++ (s ++ b) = m) :
    mentions m s := by
  subst h
  refine ⟨a.data, b.data, ?_⟩
  simp [String.data_append]

theorem mentions_append_left (s b : String) : mentions (s ++ b) s := by
  have h : "" ++ (s ++ b) = s ++ b := by simp
  exact mentions_of_eq _ "" s b h

theorem mentions_append_right (a s : String) : mentions (a ++ s) s := by
  have h : a ++ (s ++ "") = a ++ s := by simp
  exact mentions_of_eq _ a s "" h

/-- Python string slicing `s[:n]`. -/
def pyTake (s : String) (n : Nat) : String := String.mk (s.data.take n)

/-- The predicate of the scan in `Drone.last_success_build_info`
(src/drode/adapters/drone.py): status success, target the requested branch,
push event. -/
def isSuccessfulOn (branch : String) (b : BuildRecord) : Bool :=
  match b.status, b.target, b.event with
  | some st, some tg, some ev => st == "success" && tg == branch && ev == "push"
  | _, _, _ => false

/-- `Drone.last_success_build_info` (src/drode/adapters/drone.py): scan the
build history in server-returned order and return the first record whose
status is success, whose target is `branch` and whose event is push; raise
`DroneBuildError` naming the branch when none matches.  The conjuncts of the
Python condition are evaluated left to right with short-circuiting, so later
fields of a record are only subscripted when the earlier conjuncts hold. -/
def last_success_build_info (history : List BuildRecord) (branch : String) :
    Except PyError BuildRecord :=
  match history with
  | [] =>
    Except.error (PyError.droneBuildError
      ("There are no successful jobs with target branch " ++ branch))
  | b :: rest =>
    match dictGet b.status "status" with
    | Except.error e => Except.error e
    | Except.ok st =>
      if st == "success" then
        match dictGet b.target "target" with
        | Except.error e => Except.error e
        | Except.ok tg =>
          if tg == branch then
            match dictGet b.event "event" with
            | Except.error e => Except.error e
            | Except.ok ev =>
              if ev == "push" then Except.ok b
              else last_success_build_info rest branch
          else last_success_build_info rest branch
      else last_success_build_info rest branch

/-- `ask` (src/drode/services.py): the answer read from the operator is
affirmative exactly when it is the literal string "yes" or "y".  The
`input()` call is modelled by passing the answer string as an argument. -/
def ask (answer : String) : Bool :=
  if answer ∈ ["yes", "y"] then true else false

/-- The collaborators a `promote` invocation interacts with: the drone build
history (for `last_success_build_info`), the per-number build lookup
(`build_info`, which may raise `DroneBuildError`), the operator's answer to
the confirmation prompt, and the build number the remote promote endpoint
assigns to the new job. -/
structure PromoteWorld where
  history : List BuildRecord
  builds : Int → Except PyError BuildRecord
  answer : String
  promoteNumber : Int

/-- Outcome of a `promote` invocation: the returned value (or the raised
exception), whether the remote promote endpoint was called, and the
informational log lines emitted. -/
structure PromoteOutcome where
  result : Except PyError (Option Int)
  promoteCalled : Bool
  logs : List String
  deriving Repr

/-- The build-resolution step of `promote` (src/drode/services.py lines
150-154): with no build number, fetch the last successful master build and
subscript its "number" key; with an explicit number, fetch that build. -/
def promoteResolve (w : PromoteWorld) (buildNumber : Option Int) :
    Except PyError (BuildRecord × Int) :=
  match buildNumber with
  | none =>
    match last_success_build_info w.history "master" with
    | Except.error e => Except.error e
    | Except.ok build =>
      match dictGet build.number "number" with
      | Except.error e => Except.error e
      | Except.ok n => Except.ok (build, n)
  | some n =>
    match w.builds n with
    | Except.error e => Except.error e
    | Except.ok build => Except.ok (build, n)

/-- The `DronePromoteError` message of `promote` (src/drode/services.py
lines 157-160). -/
def promoteRejectMsg (buildNumber : Int) (environment status : String) :
    String :=
  "You can't promote job #" ++ toString buildNumber ++ " to " ++ environment
    ++ " as it's status is " ++ status

/-- The confirmation summary logged by `promote` (src/drode/services.py
lines 162-166). -/
def promoteSummaryMsg (buildNumber : Int)
    (projectPipeline environment after message : String) : String :=
  "You're about to promote job #" ++ toString buildNumber
    ++ " of the pipeline " ++ projectPipeline ++ " to " ++ environment
    ++ "\n\n      With commit " ++ pyTake after 8 ++ ": " ++ message

/-- `promote` (src/drode/services.py): resolve the build, reject it with a
`DronePromoteError` unless its status is success, show the summary, and call
the remote promote endpoint only when the operator confirms; a declined
confirmation returns `None`.  The summary's f-string subscripts the "after"
and "message" keys before `ask` runs, so a missing key raises there. -/
def promote (w : PromoteWorld) (projectPipeline environment : String)
    (buildNumber : Option Int) : PromoteOutcome :=
  match promoteResolve w buildNumber with
  | Except.error e => ⟨Except.error e, false, []⟩
  | Except.ok (build, number) =>
    match dictGet build.status "status" with
    | Except.error e => ⟨Except.error e, false, []⟩
    | Except.ok status =>
      if status != "success" then
        ⟨Except.error (PyError.dronePromoteError
          (promoteRejectMsg number environment status)), false, []⟩
      else
        match dictGet build.after "after" with
        | Except.error e => ⟨Except.error e, false, []⟩
        | Except.ok after =>
          match dictGet build.message "message" with
          | Except.error e => ⟨Except.error e, false, []⟩
          | Except.ok message =>
            let summary :=
              promoteSummaryMsg number projectPipeline environment after message
            if ask w.answer then
              ⟨Except.ok (some w.promoteNumber), true,
                [summary,
                 "Job #" ++ toString w.promoteNumber ++ " has started."]⟩
            else
              ⟨Except.ok none, false, [summary]⟩

/-- How a `wait` invocation ends: a normal return value, an uncaught Python
exception, or exhaustion of the supplied list of fetch results (the real loop
would keep polling beyond the modelled horizon). -/
inductive WaitResult where
  | done (value : Bool)
  | raised (e : PyError)
  | starved
  deriving Repr, DecidableEq

/-- Observable trace of a `wait` invocation: its result, the number of
`build_info` polling fetches, the number of `time.sleep(1)` calls, and the
informational log lines, in order. -/
structure WaitTrace where
  result : WaitResult
  polls : Nat
  sleeps : Nat
  logs : List String
  deriving Repr, DecidableEq

/-- The log line of `wait` for a build without a "finished" key
(src/drode/services.py line 62). -/
def notStartedMsg (buildNumber : Int) : String :=
  "Job #" ++ toString buildNumber ++ " has not started yet"

/-- The transition log line of `wait` emitted on the first unfinished fetch
(src/drode/services.py lines 51-54). -/
def waitingMsg (number : Int) (event trigger : String) : String :=
  "Waiting for job #" ++ toString number ++ " started by a " ++ event
    ++ " event by " ++ trigger ++ "."

/-- The final log line of `wait` (src/drode/services.py lines 58-60). -/
def finishedMsg (number : Int) (status : String) : String :=
  "Job #" ++ toString number ++ " has finished with status " ++ status

/-- Boolean prefix test on character lists. -/
def charsPrefix : List Char → List Char → Bool
  | [], _ => true
  | _ :: _, [] => false
  | a :: as, b :: bs => a == b && charsPrefix as bs

/-- Recognizer of the informational transition message among the emitted
log lines. -/
def isWaitingLog (s : String) : Bool :=
  charsPrefix "Waiting for job #".data s.data

/-- The poll loop of `wait` (src/drode/services.py lines 44-63) run against a
list of successive `build_info` fetch results.  Every subscription of the
fetched record happens inside a `try` block whose `except KeyError` handler
logs the not-started message and falls through to `return True`; the
f-strings subscript their keys left to right, so the first missing key
decides.  An unfinished fetch logs the transition message only when
`first_time` is still set, then sleeps one second and fetches again. -/
def waitPoll (buildNumber : Int) (fetches : List BuildRecord)
    (firstTime : Bool) : WaitTrace :=
  match fetches with
  | [] => ⟨WaitResult.starved, 0, 0, []⟩
  | build :: rest =>
    match build.finished with
    | none => ⟨WaitResult.done true, 1, 0, [notStartedMsg buildNumber]⟩
    | some f =>
      if f == 0 then
        if firstTime then
          match build.number, build.event, build.trigger with
          | some n, some ev, some tr =>
            let t := waitPoll buildNumber rest false
            ⟨t.result, t.polls + 1, t.sleeps + 1, waitingMsg n ev tr :: t.logs⟩
          | _, _, _ =>
            ⟨WaitResult.done true, 1, 0, [notStartedMsg buildNumber]⟩
        else
          let t := waitPoll buildNumber rest false
          ⟨t.result, t.polls + 1, t.sleeps + 1, t.logs⟩
      else
        match build.number, build.status with
        | some n, some st => ⟨WaitResult.done true, 1, 0, [finishedMsg n st]⟩
        | _, _ => ⟨WaitResult.done true, 1, 0, [notStartedMsg buildNumber]⟩

/-- The collaborator state a `wait` invocation sees: the record returned by
`last_build_info` and the successive records returned by `build_info`. -/
structure WaitWorld where
  lastBuild : BuildRecord
  fetches : List BuildRecord

/-- `wait` (src/drode/services.py): with no build number, resolve it from the
latest build — whose "finished" and "number" keys are subscripted outside any
`try` block, so a missing key raises an uncaught `KeyError` — and
short-circuit to success when the latest build is already finished; then run
the poll loop. -/
def wait (w : WaitWorld) (buildNumber : Option Int) : WaitTrace :=
  match buildNumber with
  | some n => waitPoll n w.fetches true
  | none =>
    match w.lastBuild.finished with
    | none => ⟨WaitResult.raised (PyError.keyError "finished"), 0, 0, []⟩
    | some f =>
      if f != 0 then
        ⟨WaitResult.done true, 0, 0, ["There are no active jobs"]⟩
      else
        match w.lastBuild.number with
        | none => ⟨WaitResult.raised (PyError.keyError "number"), 0, 0, []⟩
        | some n => waitPoll n w.fetches true

/-- What one attempt of the retry loop in `Drone.get` observes: an HTTP
response with some status code, or a `requests.exceptions.RequestException`
raised at the network level. -/
inductive AttemptOutcome where
  | response (statusCode : Nat)
  | networkError
  deriving Repr, DecidableEq

/-- An attempt that does not end the loop successfully: a non-200 response or
a network-level exception. -/
def isFailedAttempt : AttemptOutcome → Bool
  | AttemptOutcome.response c => c != 200
  | AttemptOutcome.networkError => true

/-- How `Drone.get` ends: the successful response (with the number of
attempts performed), a raised `DroneAPIError`, or a raised
`UnboundLocalError` — the final `raise` reads the local variable `response`,
which was never assigned when every attempt raised at the network level. -/
inductive GetResult where
  | ok (statusCode : Nat) (attempts : Nat)
  | apiError (msg : String) (attempts : Nat)
  | unboundLocal (attempts : Nat)
  deriving Repr, DecidableEq

/-- The `DroneAPIError` message of `Drone.get`
(src/drode/adapters/drone.py lines 167-169). -/
def apiErrorMsg (statusCode : Nat) (url : String) : String :=
  toString statusCode ++ " error while trying to access " ++ url

/-- The retry loop of `Drone.get` (src/drode/adapters/drone.py lines
145-169).  `idx` is the index of the next attempt, `remaining` the remaining
retry budget, and `lastResponse` the status code held by the Python local
`response` (none while it is still unbound).  A 200 response returns; any
other response stores its status code and consumes one retry; a network
exception consumes one retry without touching `response`. -/
def getLoop (attemptAt : Nat → AttemptOutcome) (url : String) :
    Nat → Nat → Option Nat → GetResult
  | idx, 0, lastResponse =>
    match lastResponse with
    | some code => GetResult.apiError (apiErrorMsg code url) idx
    | none => GetResult.unboundLocal idx
  | idx, remaining + 1, lastResponse =>
    match attemptAt idx with
    | AttemptOutcome.response code =>
      if code == 200 then GetResult.ok code (idx + 1)
      else getLoop attemptAt url (idx + 1) remaining (some code)
    | AttemptOutcome.networkError =>
      getLoop attemptAt url (idx + 1) remaining lastResponse

/-- `Drone.get` with the default retry budget `max_retries = 5`, over an
oracle giving the outcome of each attempt. -/
def droneGet (attemptAt : Nat → AttemptOutcome) (url : String) : GetResult :=
  getLoop attemptAt url 0 5 none

/-- The status code of the last attempt among the first `n` that produced an
HTTP response, if any: the "last observed status code". -/
def lastCodeFrom (attemptAt : Nat → AttemptOutcome) (idx : Nat) :
    Nat → Option Nat
  | 0 => none
  | r + 1 =>
    match lastCodeFrom attemptAt (idx + 1) r with
    | some c => some c
    | none =>
      match attemptAt idx with
      | AttemptOutcome.response c => some c
      | AttemptOutcome.networkError => none

/-- A YAML configuration value as held by `Config.data`
(src/drode/config.py): None, a string, an integer, or a nested mapping. -/
inductive ConfigValue where
  | vnone
  | vstr (s : String)
  | vint (n : Int)
  | vdict (entries : List (String × ConfigValue))
  deriving Repr

/-- Lookup in a mapping's entry list (Python dict subscription result). -/
def assocLookup : List (String × ConfigValue) → String → Option ConfigValue
  | [], _ => none
  | (k, v) :: rest, key => if k == key then some v else assocLookup rest key

/-- `config[key]` through `UserDict.__getitem__`: `KeyError` when the key is
missing, `TypeError` when the subscripted value is not a mapping. -/
def userdict_get (data : ConfigValue) (key : String) :
    Except PyError ConfigValue :=
  match data with
  | ConfigValue.vdict es =>
    match assocLookup es key with
    | some v => Except.ok v
    | none => Except.error (PyError.keyError key)
  | _ => Except.error (PyError.typeError "object is not subscriptable")

/-- `value.keys()`: the key list of a mapping; `AttributeError` on any other
value (None, a string or an integer has no `.keys`). -/
def dictKeys (value : ConfigValue) : Except PyError (List String) :=
  match value with
  | ConfigValue.vdict es => Except.ok (es.map Prod.fst)
  | _ => Except.error (PyError.attributeError "keys")

/-- The `str()` rendering used when a configuration value lands in an error
message.  The mapping branch is a placeholder: Python would print the dict
repr, and no claim evaluates a message on a mapping value. -/
def pyStr : ConfigValue → String
  | ConfigValue.vstr s => s
  | ConfigValue.vint n => toString n
  | ConfigValue.vnone => "None"
  | ConfigValue.vdict _ => "{...}"

/-- Python `key.split(".")` over the character list: split on every dot,
keeping empty segments, with `[""]` for the empty string. -/
def splitDotAux : List Char → List Char → List String
  | [], acc => [String.mk acc.reverse]
  | c :: rest, acc =>
    if c == '.' then String.mk acc.reverse :: splitDotAux rest []
    else splitDotAux rest (c :: acc)

/-- Python `key.split(".")`. -/
def pySplitDot (s : String) : List String := splitDotAux s.data []

/-- Python `s.lower()` for the ASCII environment names used here. -/
def pyLower (s : String) : String := String.mk (s.data.map Char.toLower)

/-- The walk of `Config.get` (src/drode/config.py lines 70-85) with the
default argument `default = None` (as `project_status` calls it): follow the
dot-separated key parts; a missing key raises `ConfigError` naming the
failing part and the original key; subscripting a non-mapping raises
`TypeError`, uncaught. -/
def configWalk (originalKey : String) :
    ConfigValue → List String → Except PyError ConfigValue
  | value, [] => Except.ok value
  | value, k :: ks =>
    match value with
    | ConfigValue.vdict es =>
      match assocLookup es k with
      | some v => configWalk originalKey v ks
      | none => Except.error (PyError.configError
          ("Failed to fetch the configuration " ++ k
            ++ " when searching for " ++ originalKey))
    | _ => Except.error (PyError.typeError "object is not subscriptable")

/-- `Config.get(key)` (default `None`): split the key on dots and walk. -/
def config_get (data : ConfigValue) (key : String) :
    Except PyError ConfigValue :=
  configWalk key data (pySplitDot key)

/-- `get_active_project` (src/drode/services.py lines 76-101): return the
value of `active_project` after checking it against the project list; a
`KeyError` anywhere in that block (missing key, `None` value, missing
`projects` key inside `_check_project`) falls back to the single configured
project, and a `KeyError`/`AttributeError` during the fallback becomes
"There are no projects configured.". -/
def activeProjectKeyList (data : ConfigValue) : Except PyError (List String) :=
  match userdict_get data "projects" with
  | Except.error e => Except.error e
  | Except.ok pj => dictKeys pj

/-- `get_active_project` itself; `activeProjectKeyList` above is the
`config["projects"].keys()` expression both its blocks evaluate. -/
def get_active_project (data : ConfigValue) : Except PyError String :=
  let attempt : Except PyError String :=
    match userdict_get data "active_project" with
    | Except.error e => Except.error e
    | Except.ok ConfigValue.vnone =>
      Except.error (PyError.keyError "There are no active projects.")
    | Except.ok apv =>
      match activeProjectKeyList data with
      | Except.error e => Except.error e
      | Except.ok ks =>
        match apv with
        | ConfigValue.vstr s =>
          if s ∈ ks then Except.ok s
          else Except.error (PyError.configError
            ("The project " ++ s ++ " does not exist"))
        | _ => Except.error (PyError.configError
            ("The project " ++ pyStr apv ++ " does not exist"))
  match attempt with
  | Except.error (PyError.keyError _) =>
    let fallback : Except PyError String :=
      match activeProjectKeyList data with
      | Except.error e => Except.error e
      | Except.ok ks =>
        if ks.length == 1 then Except.ok (ks.headD "")
        else Except.error (PyError.configError
          ("There are more than one project configured but none "
            ++ "is marked as active. Please use drode set command to "
            ++ "define one."))
    match fallback with
    | Except.error (PyError.keyError _) =>
      Except.error (PyError.configError "There are no projects configured.")
    | Except.error (PyError.attributeError _) =>
      Except.error (PyError.configError "There are no projects configured.")
    | other => other
  | other => other

/-- One member of the `Instances` list of a boto
`describe_auto_scaling_groups` response, restricted to the keys
`AWS.get_autoscaling_group` reads. -/
structure AwsInstanceData where
  instanceId : String
  launchConfigurationName : Option String := none
  launchTemplate : Option (String × String) := none
  healthStatus : String
  lifecycleState : String

/-- One autoscaling group of a boto response, restricted to the keys
`AWS.get_autoscaling_group` reads. -/
structure AwsGroupData where
  launchConfigurationName : Option String := none
  launchTemplate : Option (String × String) := none
  instances : List AwsInstanceData

/-- The EC2 data `describe_instances` yields for one instance: its private
IP and its launch time, the latter already rendered through
`strftime("%Y-%m-%dT%H:%M")` (time formatting is library behaviour). -/
structure Ec2Instance where
  privateIpAddress : String
  launchTimeFormatted : String

/-- The remote AWS state: the group list `describe_auto_scaling_groups`
returns for a name, and the EC2 data of each instance id. -/
structure AwsWorld where
  groups : String → List AwsGroupData
  ec2 : String → Ec2Instance

/-- One entry of the `instances` list of an `AutoscalerInfo` (the dict keys
"Instance", "IP", "Status", "Created", "Template" of
src/drode/adapters/aws.py lines 110-121). -/
structure InstanceInfo where
  instanceId : String
  ip : String
  status : String
  created : String
  template : String
  deriving Repr, DecidableEq

/-- The `AutoscalerInfo` dictionary built by `AWS.get_autoscaling_group`. -/
structure AutoscalerInfo where
  template : String
  instances : List InstanceInfo
  deriving Repr, DecidableEq

/-- The group-level template resolution (src/drode/adapters/aws.py lines
83-91): prefer `LaunchConfigurationName`; on its `KeyError` fall back to
`LaunchTemplateName[:35]:Version`; a `KeyError` on `LaunchTemplate` too is
uncaught. -/
def groupTemplate (g : AwsGroupData) : Except PyError String :=
  match g.launchConfigurationName with
  | some n => Except.ok n
  | none =>
    match g.launchTemplate with
    | some (tn, v) => Except.ok (pyTake tn 35 ++ ":" ++ v)
    | none => Except.error (PyError.keyError "LaunchTemplate")

/-- The per-instance template resolution (src/drode/adapters/aws.py lines
102-108): as the group-level one, but the launch-configuration name is also
truncated to 35 characters. -/
def instanceTemplate (i : AwsInstanceData) : Except PyError String :=
  match i.launchConfigurationName with
  | some n => Except.ok (pyTake n 35)
  | none =>
    match i.launchTemplate with
    | some (tn, v) => Except.ok (pyTake tn 35 ++ ":" ++ v)
    | none => Except.error (PyError.keyError "LaunchTemplate")

/-- The instance loop of `AWS.get_autoscaling_group`
(src/drode/adapters/aws.py lines 98-121). -/
def buildInstances (aw : AwsWorld) :
    List AwsInstanceData → Except PyError (List InstanceInfo)
  | [] => Except.ok []
  | i :: rest =>
    let ec2Data := aw.ec2 i.instanceId
    match instanceTemplate i with
    | Except.error e => Except.error e
    | Except.ok tmpl =>
      match buildInstances aw rest with
      | Except.error e => Except.error e
      | Except.ok restInfo =>
        Except.ok ({ instanceId := i.instanceId,
                     ip := ec2Data.privateIpAddress,
                     status := i.healthStatus ++ "/" ++ i.lifecycleState,
                     created := ec2Data.launchTimeFormatted,
                     template := tmpl } :: restInfo)

/-- `AWS.get_autoscaling_group` (src/drode/adapters/aws.py): `[0]` on an
empty group list raises `IndexError`, converted to `AWSStateError` naming the
group; otherwise resolve the group template and describe every instance. -/
def get_autoscaling_group (aw : AwsWorld) (autoscalingName : String) :
    Except PyError AutoscalerInfo :=
  match aw.groups autoscalingName with
  | [] => Except.error (PyError.awsStateError
      ("There are no autoscaling groups named " ++ autoscalingName))
  | g :: _ =>
    match groupTemplate g with
    | Except.error e => Except.error e
    | Except.ok tmpl =>
      match buildInstances aw g.instances with
      | Except.error e => Except.error e
      | Except.ok insts => Except.ok { template := tmpl, instances := insts }

/-- A `ProjectStatus` entry: the empty dict assigned on a caught
`ConfigError`, or a populated `AutoscalerInfo`. -/
inductive StatusEntry where
  | empty
  | info (a : AutoscalerInfo)
  deriving Repr, DecidableEq

/-- The configuration key `project_status` looks up for an environment
(src/drode/services.py lines 187-190). -/
def asgKey (activeProject env : String) : String :=
  "projects." ++ activeProject ++ ".aws.autoscaling_groups." ++ pyLower env

/-- The per-environment body of the loop in `project_status`
(src/drode/services.py lines 186-197): look the group name up, require it to
be a string, and describe it; the `except ConfigError` handler turns a
`ConfigError` raised anywhere in the `try` block into the empty entry, while
any other exception (in particular `AWSStateError`) propagates. -/
def statusEnv (data : ConfigValue) (aw : AwsWorld) (activeProject env : String) :
    Except PyError StatusEntry :=
  let attempt : Except PyError StatusEntry :=
    match config_get data (asgKey activeProject env) with
    | Except.error e => Except.error e
    | Except.ok (ConfigValue.vstr s) =>
      match get_autoscaling_group aw s with
      | Except.error e => Except.error e
      | Except.ok info => Except.ok (StatusEntry.info info)
    | Except.ok _ =>
      Except.error (PyError.configError "The autoscaler name is not a string")
  match attempt with
  | Except.error (PyError.configError _) => Except.ok StatusEntry.empty
  | other => other

/-- The state a `project_status` invocation sees: the configuration data and
the remote AWS state. -/
structure StatusWorld where
  data : ConfigValue
  aws : AwsWorld

/-- `project_status` (src/drode/services.py lines 175-199): resolve the
active project, then build the entry of each of the two fixed environments
in display order. -/
def project_status (w : StatusWorld) :
    Except PyError (List (String × StatusEntry)) :=
  match get_active_project w.data with
  | Except.error e => Except.error e
  | Except.ok active =>
    match statusEnv w.data w.aws active "Production" with
    | Except.error e => Except.error e
    | Except.ok prod =>
      match statusEnv w.data w.aws active "Staging" with
      | Except.error e => Except.error e
      | Except.ok stag =>
        Except.ok [("Production", prod), ("Staging", stag)]

/-! ### Concrete fixtures (used by witnesses and counterexamples) -/

/-- A killed build, as in the `test_promote_doesnt_promote_failed_jobs`
unit test. -/
def killedBuild : BuildRecord := { number := some 209, status := some "killed" }

/-- A promote world whose build 209 is killed and whose operator would
confirm. -/
def promoteWorldKilled : PromoteWorld :=
  { history := [],
    builds := fun n =>
      if n == 209 then Except.ok killedBuild
      else Except.error (PyError.droneBuildError "build not found"),
    answer := "y",
    promoteNumber := 210 }

/-- The successful master push build of the promote unit tests. -/
def successBuild208 : BuildRecord :=
  { number := some 208, status := some "success", target := some "master",
    event := some "push",
    after := some "9fc1ad6ebf12462f3f9773003e26b4c6f54a772e",
    message := some "updated README", finished := some 1 }

/-- A promote world with one successful master build and an operator whose
answer is the empty string (a declined confirmation). -/
def promoteWorldDeclined : PromoteWorld :=
  { history := [successBuild208],
    builds := fun _ => Except.error (PyError.droneBuildError "build not found"),
    answer := "",
    promoteNumber := 210 }

/-- Newest-first history of the drone adapter unit tests: a push to a
feature branch, a promote on master, then a push on master. -/
def buildFeat209 : BuildRecord :=
  { number := some 209, status := some "success", target := some "feat/1",
    event := some "push", finished := some 1 }

def buildPromote208 : BuildRecord :=
  { number := some 208, status := some "success", target := some "master",
    event := some "promote", finished := some 1 }

def buildPush207 : BuildRecord :=
  { number := some 207, status := some "success", target := some "master",
    event := some "push", finished := some 1 }

def droneHistory : List BuildRecord :=
  [buildFeat209, buildPromote208, buildPush207]

/-- The first fetch of the `test_wait_waits_for_the_build_to_finish`
scenario: build 209 still running. -/
def pendingBuild209 : BuildRecord :=
  { number := some 209, event := some "promote",
    trigger := some "trigger_author", finished := some 0 }

/-- The second fetch of the same scenario: build 209 finished. -/
def finishedBuild209 : BuildRecord :=
  { number := some 209, finished := some 1591129124,
    status := some "success" }

/-- The `test_wait_manages_unstarted_builds` scenario: the first fetch has
no "finished" key at all. -/
def waitWorldUnstarted : WaitWorld :=
  { lastBuild := {},
    fetches := [{ number := some 209 }, finishedBuild209] }

/-- The `test_wait_returns_if_there_are_no_running_builds` scenario: the
latest build is already finished. -/
def waitWorldFinished : WaitWorld :=
  { lastBuild := { finished := some 1591129124 }, fetches := [] }

/-- A latest build lacking the "finished" key entirely. -/
def waitWorldNoFinished : WaitWorld :=
  { lastBuild := { number := some 209 }, fetches := [] }

/-- Configuration with one active project whose production and staging
fleet-group names are both configured. -/
def configDataBothGroups : ConfigValue :=
  ConfigValue.vdict
    [("active_project", ConfigValue.vstr "test_project"),
     ("projects", ConfigValue.vdict
       [("test_project", ConfigValue.vdict
         [("aws", ConfigValue.vdict
           [("autoscaling_groups", ConfigValue.vdict
             [("production", ConfigValue.vstr "prod-asg"),
              ("staging", ConfigValue.vstr "stag-asg")])])])])]

/-- Configuration with one active project that only has a production
fleet-group name: nothing is configured for staging. -/
def configDataNoStaging : ConfigValue :=
  ConfigValue.vdict
    [("active_project", ConfigValue.vstr "test_project"),
     ("projects", ConfigValue.vdict
       [("test_project", ConfigValue.vdict
         [("aws", ConfigValue.vdict
           [("autoscaling_groups", ConfigValue.vdict
             [("production", ConfigValue.vstr "prod-asg")])])])])]

/-- An AWS state in which no autoscaling group exists under any name. -/
def awsWorldNoGroups : AwsWorld :=
  { groups := fun _ => [],
    ec2 := fun _ => { privateIpAddress := "", launchTimeFormatted := "" } }

/-- The autoscaling group of the status unit tests: one healthy in-service
instance created by an older launch configuration. -/
def prodGroupData : AwsGroupData :=
  { launchConfigurationName := some "launch-config-name",
    instances :=
      [{ instanceId := "i-xxxxxxxxxxxxxxxxx",
         launchConfigurationName := some "old-launch-config-name",
         healthStatus := "Healthy", lifecycleState := "InService" }] }

/-- EC2 data of that instance. -/
def awsWorldProd : AwsWorld :=
  { groups := fun n => if n == "prod-asg" then [prodGroupData] else [],
    ec2 := fun _ =>
      { privateIpAddress := "192.168.1.13",
        launchTimeFormatted := "2020-06-08T11:29" } }

/-- The `AutoscalerInfo` those fixtures produce. -/
def prodAutoscalerInfo : AutoscalerInfo :=
  { template := "launch-config-name",
    instances :=
      [{ instanceId := "i-xxxxxxxxxxxxxxxxx", ip := "192.168.1.13",
         status := "Healthy/InService", created := "2020-06-08T11:29",
         template := "old-launch-config-name" }] }

/-- A status world whose configured production group name does not resolve
to any existing autoscaling group. -/
def statusWorldMissingGroup : StatusWorld :=
  { data := configDataBothGroups, aws := awsWorldNoGroups }

/-- A status world with a populated production group and no configured
staging group. -/
def statusWorldNoStaging : StatusWorld :=
  { data := configDataNoStaging, aws := awsWorldProd }

/-! ### Theorems -/

/-- Claim C3: for every build history in server-returned order and every
branch, `last_success_build_info` returns the first record whose status is
success, whose target is the branch and whose event is push; when no record
of the history satisfies all three conditions it raises `DroneBuildError`
with a message naming the branch. -/
theorem last_success_scans_in_order (history : List BuildRecord)
    (branch : String)
    (hfields : ∀ b ∈ history, b.status.isSome ∧ b.target.isSome ∧ b.event.isSome) :
    (∀ b, history.find? (isSuccessfulOn branch) = some b →
      last_success_build_info history branch = Except.ok b) ∧
    (history.find? (isSuccessfulOn branch) = none →
      last_success_build_info history branch =
        Except.error (PyError.droneBuildError
          ("There are no successful jobs with target branch " ++ branch)) ∧
      mentions ("There are no successful jobs with target branch " ++ branch)
        branch) := by
  induction history with
  | nil =>
    refine ⟨fun b h => by simp [List.find?] at h, fun _ => ⟨rfl, ?_⟩⟩
    exact mentions_append_right _ _
  | cons b rest ih =>
    obtain ⟨hs, ht, he⟩ := hfields b (List.mem_cons_self b rest)
    obtain ⟨st, hst⟩ := Option.isSome_iff_exists.mp hs
    obtain ⟨tg, htg⟩ := Option.isSome_iff_exists.mp ht
    obtain ⟨ev, hev⟩ := Option.isSome_iff_exists.mp he
    have ihr := ih (fun b hb => hfields b (List.mem_cons_of_mem _ hb))
    have hpred : isSuccessfulOn branch b
        = (st == "success" && tg == branch && ev == "push") := by
      simp [isSuccessfulOn, hst, htg, hev]
    by_cases h1 : st = "success"
    · by_cases h2 : tg = branch
      · by_cases h3 : ev = "push"
        · have hp : isSuccessfulOn branch b = true := by
            simp [hpred, h1, h2, h3]
          rw [List.find?_cons_of_pos _ hp]
          refine ⟨fun b' hb' => ?_, fun hnone => by simp at hnone⟩
          obtain rfl : b = b' := by injection hb'
          simp [last_success_build_info, dictGet, hst, htg, hev, h1, h2, h3]
        · have hp : isSuccessfulOn branch b = false := by
            simp [hpred, h3]
          rw [List.find?_cons_of_neg _ (by simp [hp])]
          have hrec : last_success_build_info (b :: rest) branch
              = last_success_build_info rest branch := by
            simp [last_success_build_info, dictGet, hst, htg, hev, h1, h2, h3]
          rw [hrec]
          exact ihr
      · have hp : isSuccessfulOn branch b = false := by
          simp [hpred, h2]
        rw [List.find?_cons_of_neg _ (by simp [hp])]
        have hrec : last_success_build_info (b :: rest) branch
            = last_success_build_info rest branch := by
          simp [last_success_build_info, dictGet, hst, htg, h1, h2]
        rw [hrec]
        exact ihr
    · have hp : isSuccessfulOn branch b = false := by
        simp [hpred, h1]
      rw [List.find?_cons_of_neg _ (by simp [hp])]
      have hrec : last_success_build_info (b :: rest) branch
          = last_success_build_info rest branch := by
        simp [last_success_build_info, dictGet, hst, h1]
      rw [hrec]
      exact ihr

/-- Witness for claim C3 at the drone unit-test history: the first success
on master with a push event is build 207. -/
theorem last_success_scans_in_order_witness :
    last_success_build_info droneHistory "master" = Except.ok buildPush207 :=
  (last_success_scans_in_order droneHistory "master" (by decide)).1
    buildPush207 (by decide)

/-- Claim C1: whenever the build a promotion resolves to (with or without an
explicit build number) has a status other than success, `promote` raises
`DronePromoteError` whose message names the build number, the target
environment and the actual status, and the remote promote endpoint is never
called. -/
theorem promote_rejects_non_success (w : PromoteWorld)
    (projectPipeline environment : String) (buildNumber : Option Int)
    (build : BuildRecord) (n : Int) (st : String)
    (hres : promoteResolve w buildNumber = Except.ok (build, n))
    (hst : build.status = some st) (hne : st ≠ "success") :
    promote w projectPipeline environment buildNumber =
      ⟨Except.error (PyError.dronePromoteError
        (promoteRejectMsg n environment st)), false, []⟩ ∧
    mentions (promoteRejectMsg n environment st) (toString n) ∧
    mentions (promoteRejectMsg n environment st) environment ∧
    mentions (promoteRejectMsg n environment st) st := by
  have hbeq : (st == "success") = false := by
    simp [hne]
  refine ⟨?_, ?_, ?_, ?_⟩
  · simp [promote, hres, dictGet, hst, hbeq, hne]
  · exact mentions_of_eq _ "You can't promote job #" (toString n)
      (" to " ++ environment ++ " as it's status is " ++ st)
      (by simp [promoteRejectMsg, String.append_assoc])
  · exact mentions_of_eq _ ("You can't promote job #" ++ toString n ++ " to ")
      environment (" as it's status is " ++ st)
      (by simp [promoteRejectMsg, String.append_assoc])
  · exact mentions_of_eq _
      ("You can't promote job #" ++ toString n ++ " to " ++ environment
        ++ " as it's status is ")
      st ""
      (by simp [promoteRejectMsg, String.append_assoc])

/-- Witness for claim C1: promoting the killed build 209 to production. -/
theorem promote_rejects_non_success_witness :
    promote promoteWorldKilled "owner/repository" "production" (some 209) =
      ⟨Except.error (PyError.dronePromoteError
        (promoteRejectMsg 209 "production" "killed")), false, []⟩ ∧
    mentions (promoteRejectMsg 209 "production" "killed") "killed" := by
  have h := promote_rejects_non_success promoteWorldKilled "owner/repository"
    "production" (some 209) killedBuild 209 "killed" rfl rfl (by decide)
  exact ⟨h.1, h.2.2.2⟩

/-- Claim C2: the confirmation answer is affirmative exactly for the literal
strings "yes" and "y" (case-sensitively); with any other answer, a promotion
whose resolved build is successful returns `None` — not an error — and the
remote promote endpoint is never called. -/
theorem ask_and_decline_semantics :
    (∀ a : String, ask a = true ↔ a = "yes" ∨ a = "y") ∧
    (∀ (w : PromoteWorld) (projectPipeline environment : String)
       (buildNumber : Option Int) (build : BuildRecord) (n : Int),
      promoteResolve w buildNumber = Except.ok (build, n) →
      build.status = some "success" →
      build.after.isSome = true →
      build.message.isSome = true →
      ask w.answer = false →
      (promote w projectPipeline environment buildNumber).result
          = Except.ok none ∧
      (promote w projectPipeline environment buildNumber).promoteCalled
          = false) := by
  constructor
  · intro a
    simp [ask]
  · intro w projectPipeline environment buildNumber build n hres hst haft hmsg hask
    obtain ⟨aft, haft'⟩ := Option.isSome_iff_exists.mp haft
    obtain ⟨msg, hmsg'⟩ := Option.isSome_iff_exists.mp hmsg
    constructor
    · simp [promote, hres, dictGet, hst, haft', hmsg', hask]
    · simp [promote, hres, dictGet, hst, haft', hmsg', hask]

/-- Witness for claim C2: the empty answer declines, the promotion of the
successful build 208 resolved from the history returns `None`, and the
promote endpoint is not called. -/
theorem ask_and_decline_semantics_witness :
    ask "" = false ∧
    (promote promoteWorldDeclined "owner/repository" "production" none).result
        = Except.ok none ∧
    (promote promoteWorldDeclined "owner/repository" "production" none).promoteCalled
        = false := by
  have h := ask_and_decline_semantics.2 promoteWorldDeclined "owner/repository"
    "production" none successBuild208 208 rfl rfl (by decide) (by decide)
    (by decide)
  exact ⟨by decide, h.1, h.2⟩

/-- Helper: once the transition message has been emitted (`first_time` is
off), a run of pending fetches followed by a finished fetch polls once per
record, sleeps once per pending record, and logs only the final message. -/
theorem waitPoll_pending_not_first (n : Int) (pend : List BuildRecord)
    (fin : BuildRecord) (m nv : Int) (sv : String)
    (hp : ∀ b ∈ pend, b.finished = some 0)
    (hf : fin.finished = some m) (hm : m ≠ 0)
    (hn : fin.number = some nv) (hs : fin.status = some sv) :
    waitPoll n (pend ++ [fin]) false =
      ⟨WaitResult.done true, pend.length + 1, pend.length,
        [finishedMsg nv sv]⟩ := by
  induction pend with
  | nil => simp [waitPoll, hf, hm, hn, hs]
  | cons b rest ih =>
    have hb := hp b (List.mem_cons_self b rest)
    have ihr := ih (fun b' hb' => hp b' (List.mem_cons_of_mem _ hb'))
    simp [waitPoll, hb, ihr]

/-- Claim C5: waiting on a resolved build number whose fetches are k
unfinished records followed by a finished one sleeps exactly once per
unfinished fetch, polls k+1 times, emits the informational transition
message exactly on the first unfinished fetch (so once when k is positive
and never when k is zero), and returns success once — whatever the terminal
status is. -/
theorem wait_polls_until_finished (n : Int) (pend : List BuildRecord)
    (fin : BuildRecord) (m : Int)
    (hp : ∀ b ∈ pend, b.finished = some 0 ∧ b.number.isSome = true
      ∧ b.event.isSome = true ∧ b.trigger.isSome = true)
    (hf : fin.finished = some m) (hm : m ≠ 0)
    (hn : fin.number.isSome = true) (hs : fin.status.isSome = true) :
    (waitPoll n (pend ++ [fin]) true).result = WaitResult.done true ∧
    (waitPoll n (pend ++ [fin]) true).polls = pend.length + 1 ∧
    (waitPoll n (pend ++ [fin]) true).sleeps = pend.length ∧
    (waitPoll n (pend ++ [fin]) true).logs.countP isWaitingLog
        = min pend.length 1 := by
  obtain ⟨nv, hnv⟩ := Option.isSome_iff_exists.mp hn
  obtain ⟨sv, hsv⟩ := Option.isSome_iff_exists.mp hs
  cases pend with
  | nil =>
    have h0 : isWaitingLog (finishedMsg nv sv) = false := rfl
    simp [waitPoll, hf, hm, hnv, hsv, h0]
  | cons b rest =>
    obtain ⟨hb0, hbn, hbe, hbt⟩ := hp b (List.mem_cons_self b rest)
    obtain ⟨bn, hbn'⟩ := Option.isSome_iff_exists.mp hbn
    obtain ⟨bev, hbe'⟩ := Option.isSome_iff_exists.mp hbe
    obtain ⟨btr, hbt'⟩ := Option.isSome_iff_exists.mp hbt
    have hrest : waitPoll n (rest ++ [fin]) false =
        ⟨WaitResult.done true, rest.length + 1, rest.length,
          [finishedMsg nv sv]⟩ :=
      waitPoll_pending_not_first n rest fin m nv sv
        (fun b' hb' => (hp b' (List.mem_cons_of_mem _ hb')).1) hf hm hnv hsv
    have h1 : isWaitingLog (waitingMsg bn bev btr) = true := rfl
    have h0 : isWaitingLog (finishedMsg nv sv) = false := rfl
    simp [waitPoll, hb0, hbn', hbe', hbt', hrest, h1, h0,
      List.countP_cons]

/-- Witness for claim C5 at the `test_wait_waits_for_the_build_to_finish`
scenario: one unfinished fetch, then a finished one. -/
theorem wait_polls_until_finished_witness :
    (waitPoll 209 ([pendingBuild209] ++ [finishedBuild209]) true).result
        = WaitResult.done true ∧
    (waitPoll 209 ([pendingBuild209] ++ [finishedBuild209]) true).polls = 2 ∧
    (waitPoll 209 ([pendingBuild209] ++ [finishedBuild209]) true).sleeps = 1 ∧
    (waitPoll 209 ([pendingBuild209] ++ [finishedBuild209]) true).logs.countP
        isWaitingLog = 1 := by
  have h := wait_polls_until_finished 209 [pendingBuild209] finishedBuild209
    1591129124 (by decide) rfl (by decide) rfl rfl
  simpa using h

/-- Claim C6: when the first fetched record has no "finished" key at all,
`wait` on an explicit build number reports that the build has not started
yet and returns success immediately — one fetch, zero sleeps, no looping
over the remaining states. -/
theorem wait_unstarted_returns_immediately (w : WaitWorld) (n : Int)
    (b : BuildRecord) (rest : List BuildRecord)
    (hw : w.fetches = b :: rest) (hb : b.finished = none) :
    wait w (some n) =
      ⟨WaitResult.done true, 1, 0, [notStartedMsg n]⟩ := by
  simp [wait, waitPoll, hw, hb]

/-- Witness for claim C6 at the `test_wait_manages_unstarted_builds`
scenario. -/
theorem wait_unstarted_returns_immediately_witness :
    wait waitWorldUnstarted (some 209) =
      ⟨WaitResult.done true, 1, 0, [notStartedMsg 209]⟩ :=
  wait_unstarted_returns_immediately waitWorldUnstarted 209
    { number := some 209 } [finishedBuild209] rfl rfl

/-- Claim C7: when `wait` is called with no build number and the latest
build is already finished, it reports that there are no active jobs and
returns success with zero polling fetches and zero sleeps. -/
theorem wait_short_circuits_finished (w : WaitWorld) (f : Int)
    (hf : w.lastBuild.finished = some f) (hne : f ≠ 0) :
    wait w none =
      ⟨WaitResult.done true, 0, 0, ["There are no active jobs"]⟩ := by
  simp [wait, hf, hne]

/-- Witness for claim C7 at the
`test_wait_returns_if_there_are_no_running_builds` scenario. -/
theorem wait_short_circuits_finished_witness :
    wait waitWorldFinished none =
      ⟨WaitResult.done true, 0, 0, ["There are no active jobs"]⟩ :=
  wait_short_circuits_finished waitWorldFinished 1591129124 rfl (by decide)

/-- Claim C10: when `wait` is called with no build number and the latest
build's record lacks the "finished" key entirely, the resolution step raises
an uncaught `KeyError` — no "not started" or "no active jobs" report, no
poll, no sleep: the unstarted-build handling lives only inside the poll
loop. -/
theorem wait_resolution_raises_keyerror (w : WaitWorld)
    (hb : w.lastBuild.finished = none) :
    wait w none =
      ⟨WaitResult.raised (PyError.keyError "finished"), 0, 0, []⟩ := by
  simp [wait, hb]

/-- Witness for claim C10: a latest build with only a "number" key. -/
theorem wait_resolution_raises_keyerror_witness :
    wait waitWorldNoFinished none =
      ⟨WaitResult.raised (PyError.keyError "finished"), 0, 0, []⟩ :=
  wait_resolution_raises_keyerror waitWorldNoFinished rfl

/-- Helper: a successful attempt after `k` failed ones returns the response
and performs exactly `k + 1` attempts, from any point of the loop. -/
theorem getLoop_success (attemptAt : Nat → AttemptOutcome) (url : String) :
    ∀ (k idx remaining : Nat) (last : Option Nat),
      k < remaining →
      (∀ i, i < k → isFailedAttempt (attemptAt (idx + i)) = true) →
      attemptAt (idx + k) = AttemptOutcome.response 200 →
      getLoop attemptAt url idx remaining last = GetResult.ok 200 (idx + k + 1) := by
  intro k
  induction k with
  | zero =>
    intro idx remaining last hlt hfail hsucc
    cases remaining with
    | zero => omega
    | succ r =>
      have h0 : attemptAt idx = AttemptOutcome.response 200 := by
        simpa using hsucc
      simp [getLoop, h0]
  | succ k ih =>
    intro idx remaining last hlt hfail hsucc
    cases remaining with
    | zero => omega
    | succ r =>
      have h0 : isFailedAttempt (attemptAt idx) = true := by
        simpa using hfail 0 (Nat.succ_pos k)
      have hfail' : ∀ i, i < k → isFailedAttempt (attemptAt (idx + 1 + i)) = true := by
        intro i hi
        have := hfail (i + 1) (by omega)
        have harith : idx + (i + 1) = idx + 1 + i := by omega
        rwa [harith] at this
      have hsucc' : attemptAt (idx + 1 + k) = AttemptOutcome.response 200 := by
        have harith : idx + (k + 1) = idx + 1 + k := by omega
        rwa [harith] at hsucc
      have harith2 : idx + 1 + k + 1 = idx + (k + 1) + 1 := by omega
      cases hA : attemptAt idx with
      | response c =>
        have hc : (c == 200) = false := by
          rw [hA] at h0
          simpa [isFailedAttempt] using h0
        rw [getLoop, hA]
        simp only [hc, Bool.false_eq_true, if_false]
        rw [ih (idx + 1) r (some c) (by omega) hfail' hsucc', harith2]
      | networkError =>
        rw [getLoop, hA]
        rw [ih (idx + 1) r last (by omega) hfail' hsucc', harith2]

/-- Helper: when every attempt of the window fails, the loop ends after
exactly the whole budget, raising with the last observed status code — taken
from the window if any response arrived there, otherwise from the value the
`response` local already held; with neither, the final raise trips over the
unbound local. -/
theorem getLoop_allfail (attemptAt : Nat → AttemptOutcome) (url : String) :
    ∀ (remaining idx : Nat) (last : Option Nat),
      (∀ i, i < remaining → isFailedAttempt (attemptAt (idx + i)) = true) →
      getLoop attemptAt url idx remaining last =
        match lastCodeFrom attemptAt idx remaining with
        | some c => GetResult.apiError (apiErrorMsg c url) (idx + remaining)
        | none =>
          match last with
          | some c => GetResult.apiError (apiErrorMsg c url) (idx + remaining)
          | none => GetResult.unboundLocal (idx + remaining)
  | 0, idx, last, _ => by
    simp [getLoop, lastCodeFrom]
  | remaining + 1, idx, last, hfail => by
    have h0 : isFailedAttempt (attemptAt idx) = true := by
      simpa using hfail 0 (Nat.succ_pos remaining)
    have hfail' : ∀ i, i < remaining →
        isFailedAttempt (attemptAt (idx + 1 + i)) = true := by
      intro i hi
      have := hfail (i + 1) (by omega)
      have harith : idx + (i + 1) = idx + 1 + i := by omega
      rwa [harith] at this
    have harith2 : idx + 1 + remaining = idx + (remaining + 1) := by omega
    cases hA : attemptAt idx with
    | response c =>
      have hc : (c == 200) = false := by
        rw [hA] at h0
        simpa [isFailedAttempt] using h0
      rw [getLoop, hA]
      simp only [hc, Bool.false_eq_true, if_false]
      rw [getLoop_allfail attemptAt url remaining (idx + 1) (some c) hfail']
      rw [lastCodeFrom, hA, harith2]
      cases lastCodeFrom attemptAt (idx + 1) remaining with
      | none => simp
      | some c' => simp
    | networkError =>
      rw [getLoop, hA]
      rw [getLoop_allfail attemptAt url remaining (idx + 1) last hfail']
      rw [lastCodeFrom, hA, harith2]
      cases lastCodeFrom attemptAt (idx + 1) remaining with
      | none => simp
      | some c' => simp

/-- Claim C4 (amended): through `Drone.get` with its default budget of five
attempts, a call that fails N times (N < 5) — by non-200 response or by
network exception, in any position — and then succeeds returns the
successful response after exactly N+1 attempts; and a call whose five
attempts all fail, at least one of them receiving an HTTP response, raises
`DroneAPIError` after exactly five attempts, carrying the last observed
status code and the requested URL. -/
theorem droneGet_retry_semantics :
    (∀ (attemptAt : Nat → AttemptOutcome) (url : String) (N : Nat),
      N < 5 →
      (∀ i, i < N → isFailedAttempt (attemptAt i) = true) →
      attemptAt N = AttemptOutcome.response 200 →
      droneGet attemptAt url = GetResult.ok 200 (N + 1)) ∧
    (∀ (attemptAt : Nat → AttemptOutcome) (url : String) (c : Nat),
      (∀ i, i < 5 → isFailedAttempt (attemptAt i) = true) →
      lastCodeFrom attemptAt 0 5 = some c →
      droneGet attemptAt url = GetResult.apiError (apiErrorMsg c url) 5 ∧
      mentions (apiErrorMsg c url) url ∧
      mentions (apiErrorMsg c url) (toString c)) := by
  constructor
  · intro attemptAt url N hlt hfail hsucc
    have h := getLoop_success attemptAt url N 0 5 none hlt
      (by intro i hi; simpa using hfail i hi) (by simpa using hsucc)
    simpa [droneGet] using h
  · intro attemptAt url c hfail hlast
    refine ⟨?_, ?_, ?_⟩
    · have h := getLoop_allfail attemptAt url 5 0 none
        (by intro i hi; simpa using hfail i hi)
      rw [droneGet, h, hlast]
    · exact mentions_of_eq _ (toString c ++ " error while trying to access ")
        url "" (by simp [apiErrorMsg, String.append_assoc])
    · exact mentions_of_eq _ "" (toString c)
        (" error while trying to access " ++ url)
        (by simp [apiErrorMsg, String.append_assoc])

/-- Witness for claim C4: four network failures then a 200 return the
response on the fifth attempt; five straight 401 responses raise the
`DroneAPIError` of the drone adapter unit test. -/
theorem droneGet_retry_semantics_witness :
    droneGet
        (fun i => if i < 4 then AttemptOutcome.networkError
                  else AttemptOutcome.response 200) "http://url"
      = GetResult.ok 200 5 ∧
    droneGet (fun _ => AttemptOutcome.response 401) "http://url"
      = GetResult.apiError (apiErrorMsg 401 "http://url") 5 := by
  constructor
  · exact droneGet_retry_semantics.1
      (fun i => if i < 4 then AttemptOutcome.networkError
                else AttemptOutcome.response 200)
      "http://url" 4 (by omega)
      (fun i hi => by simp [isFailedAttempt, hi]) rfl
  · exact (droneGet_retry_semantics.2 (fun _ => AttemptOutcome.response 401)
      "http://url" 401 (fun i _ => rfl) rfl).1

/-- Counterexample for claim C4 as frozen: when all five attempts fail at
the network level, `Drone.get` does not raise `DroneAPIError` at all — the
final raise reads the never-assigned local `response`, so an
`UnboundLocalError` escapes instead. -/
theorem droneGet_all_network_counterexample :
    (∀ i : Nat,
      isFailedAttempt ((fun _ => AttemptOutcome.networkError) i) = true) ∧
    droneGet (fun _ => AttemptOutcome.networkError) "http://url"
        = GetResult.unboundLocal 5 ∧
    (∀ (msg : String) (k : Nat),
      droneGet (fun _ => AttemptOutcome.networkError) "http://url"
        ≠ GetResult.apiError msg k) := by
  refine ⟨fun _ => rfl, rfl, ?_⟩
  intro msg k h
  exact GetResult.noConfusion
    (show GetResult.unboundLocal 5 = GetResult.apiError msg k from h)

/-- Helper: a `ConfigError` from the group-name lookup (missing key or
non-string value) is caught and becomes an empty status entry. -/
theorem statusEnv_empty_of_configError (data : ConfigValue) (aw : AwsWorld)
    (active env e : String)
    (hc : config_get data (asgKey active env)
        = Except.error (PyError.configError e)) :
    statusEnv data aw active env = Except.ok StatusEntry.empty := by
  simp [statusEnv, hc]

/-- Helper: a configured string group name whose description succeeds gives
the populated entry. -/
theorem statusEnv_info_of_configured (data : ConfigValue) (aw : AwsWorld)
    (active env name : String) (info : AutoscalerInfo)
    (hc : config_get data (asgKey active env)
        = Except.ok (ConfigValue.vstr name))
    (hg : get_autoscaling_group aw name = Except.ok info) :
    statusEnv data aw active env = Except.ok (StatusEntry.info info) := by
  simp [statusEnv, hc, hg]

/-- Claim C8 (amended): when the configured fleet-group name of the
Production environment resolves to a string but no autoscaling group of that
name exists, `project_status` does not record an empty entry — the
`AWSStateError` escapes the per-environment handler (which catches only
`ConfigError`) and aborts the whole status report.  An empty entry is
recorded exactly when the configuration lookup itself fails with
`ConfigError`. -/
theorem status_awsstateerror_propagates :
    (∀ (w : StatusWorld) (active name : String),
      get_active_project w.data = Except.ok active →
      config_get w.data (asgKey active "Production")
          = Except.ok (ConfigValue.vstr name) →
      w.aws.groups name = [] →
      project_status w = Except.error (PyError.awsStateError
        ("There are no autoscaling groups named " ++ name))) ∧
    (∀ (data : ConfigValue) (aw : AwsWorld) (active env e : String),
      config_get data (asgKey active env)
          = Except.error (PyError.configError e) →
      statusEnv data aw active env = Except.ok StatusEntry.empty) := by
  constructor
  · intro w active name ha hc hg
    have henv : statusEnv w.data w.aws active "Production"
        = Except.error (PyError.awsStateError
            ("There are no autoscaling groups named " ++ name)) := by
      simp [statusEnv, hc, get_autoscaling_group, hg]
    simp [project_status, ha, henv]
  · intro data aw active env e hc
    exact statusEnv_empty_of_configError data aw active env e hc

/-- Witness for claim C8 (amended) at the concrete missing-group world. -/
theorem status_awsstateerror_propagates_witness :
    project_status statusWorldMissingGroup
      = Except.error (PyError.awsStateError
          ("There are no autoscaling groups named " ++ "prod-asg")) :=
  status_awsstateerror_propagates.1 statusWorldMissingGroup "test_project"
    "prod-asg" rfl rfl rfl

/-- Counterexample for claim C8 as frozen: with the fleet group configured
as "prod-asg" but absent from AWS, `project_status` raises `AWSStateError`
instead of returning any status report — no empty entry is recorded. -/
theorem status_awsstateerror_counterexample :
    project_status statusWorldMissingGroup
      = Except.error (PyError.awsStateError
          "There are no autoscaling groups named prod-asg") ∧
    (∀ entries, project_status statusWorldMissingGroup
        ≠ Except.ok entries) := by
  refine ⟨rfl, ?_⟩
  intro entries h
  exact Except.noConfusion
    (show (Except.error (PyError.awsStateError
        "There are no autoscaling groups named prod-asg")
      : Except PyError (List (String × StatusEntry))) = Except.ok entries
     from h)

/-- Claim C9: when the active project resolves and, for each environment,
either no group name is configured (the lookup raises `ConfigError`) or the
configured group describes successfully, `project_status` returns entries
for exactly "Production" and "Staging", in that order; an unconfigured
environment gets the empty entry rather than failing the operation, and a
configured one gets its populated `AutoscalerInfo`. -/
theorem status_covers_both_environments (w : StatusWorld) (active : String)
    (ha : get_active_project w.data = Except.ok active)
    (hP : (∃ e, config_get w.data (asgKey active "Production")
            = Except.error (PyError.configError e)) ∨
          (∃ name info, config_get w.data (asgKey active "Production")
            = Except.ok (ConfigValue.vstr name) ∧
            get_autoscaling_group w.aws name = Except.ok info))
    (hS : (∃ e, config_get w.data (asgKey active "Staging")
            = Except.error (PyError.configError e)) ∨
          (∃ name info, config_get w.data (asgKey active "Staging")
            = Except.ok (ConfigValue.vstr name) ∧
            get_autoscaling_group w.aws name = Except.ok info)) :
    ∃ pe se,
      project_status w = Except.ok [("Production", pe), ("Staging", se)] ∧
      ((∃ e, config_get w.data (asgKey active "Production")
          = Except.error (PyError.configError e)) → pe = StatusEntry.empty) ∧
      (∀ name info, config_get w.data (asgKey active "Production")
          = Except.ok (ConfigValue.vstr name) →
        get_autoscaling_group w.aws name = Except.ok info →
        pe = StatusEntry.info info) ∧
      ((∃ e, config_get w.data (asgKey active "Staging")
          = Except.error (PyError.configError e)) → se = StatusEntry.empty) ∧
      (∀ name info, config_get w.data (asgKey active "Staging")
          = Except.ok (ConfigValue.vstr name) →
        get_autoscaling_group w.aws name = Except.ok info →
        se = StatusEntry.info info) := by
  have hPe : ∃ pe, statusEnv w.data w.aws active "Production" = Except.ok pe ∧
      ((∃ e, config_get w.data (asgKey active "Production")
          = Except.error (PyError.configError e)) → pe = StatusEntry.empty) ∧
      (∀ name info, config_get w.data (asgKey active "Production")
          = Except.ok (ConfigValue.vstr name) →
        get_autoscaling_group w.aws name = Except.ok info →
        pe = StatusEntry.info info) := by
    rcases hP with ⟨e, hc⟩ | ⟨name, info, hc, hg⟩
    · refine ⟨StatusEntry.empty,
        statusEnv_empty_of_configError _ _ _ _ _ hc, fun _ => rfl, ?_⟩
      intro name' info' hcc _
      rw [hc] at hcc
      exact Except.noConfusion hcc
    · refine ⟨StatusEntry.info info,
        statusEnv_info_of_configured _ _ _ _ _ _ hc hg, ?_, ?_⟩
      · intro hee
        obtain ⟨e, hcc⟩ := hee
        rw [hc] at hcc
        exact Except.noConfusion hcc
      · intro name' info' hcc hgg
        rw [hc] at hcc
        have hn : ConfigValue.vstr name = ConfigValue.vstr name' := by
          injection hcc
        have hn' : name = name' := by injection hn
        rw [← hn'] at hgg
        rw [hg] at hgg
        have : info = info' := by injection hgg
        rw [this]
  have hSe : ∃ se, statusEnv w.data w.aws active "Staging" = Except.ok se ∧
      ((∃ e, config_get w.data (asgKey active "Staging")
          = Except.error (PyError.configError e)) → se = StatusEntry.empty) ∧
      (∀ name info, config_get w.data (asgKey active "Staging")
          = Except.ok (ConfigValue.vstr name) →
        get_autoscaling_group w.aws name = Except.ok info →
        se = StatusEntry.info info) := by
    rcases hS with ⟨e, hc⟩ | ⟨name, info, hc, hg⟩
    · refine ⟨StatusEntry.empty,
        statusEnv_empty_of_configError _ _ _ _ _ hc, fun _ => rfl, ?_⟩
      intro name' info' hcc _
      rw [hc] at hcc
      exact Except.noConfusion hcc
    · refine ⟨StatusEntry.info info,
        statusEnv_info_of_configured _ _ _ _ _ _ hc hg, ?_, ?_⟩
      · intro hee
        obtain ⟨e, hcc⟩ := hee
        rw [hc] at hcc
        exact Except.noConfusion hcc
      · intro name' info' hcc hgg
        rw [hc] at hcc
        have hn : ConfigValue.vstr name = ConfigValue.vstr name' := by
          injection hcc
        have hn' : name = name' := by injection hn
        rw [← hn'] at hgg
        rw [hg] at hgg
        have : info = info' := by injection hgg
        rw [this]
  obtain ⟨pe, hpe, hpe1, hpe2⟩ := hPe
  obtain ⟨se, hse, hse1, hse2⟩ := hSe
  refine ⟨pe, se, ?_, hpe1, hpe2, hse1, hse2⟩
  simp [project_status, ha, hpe, hse]

/-- Witness for claim C9 at the unit-test scenario: a populated production
group, nothing configured for staging. -/
theorem status_covers_both_environments_witness :
    project_status statusWorldNoStaging
      = Except.ok [("Production", StatusEntry.info prodAutoscalerInfo),
                   ("Staging", StatusEntry.empty)] := by
  obtain ⟨pe, se, hmain, _, hPinfo, hSempty, _⟩ :=
    status_covers_both_environments statusWorldNoStaging "test_project" rfl
      (Or.inr ⟨"prod-asg", prodAutoscalerInfo, rfl, rfl⟩)
      (Or.inl ⟨_, rfl⟩)
  rw [hmain, hPinfo "prod-asg" prodAutoscalerInfo rfl rfl, hSempty ⟨_, rfl⟩]

end Drode
